import Mathlib

/-!
Verification development for the PredictiveDelivery dashboard (`app.py`).

The program is a pandas/Streamlit script: it loads CSV tables, left-joins
`orders` with `delivery_performance` on `Order_ID`, derives `Delay Days` and
`Delay Flag`, filters by the `Priority` and `Product Category` columns,
computes four KPIs, renders charts (one of which coerces `Order Date` to
datetimes in place), and exports the filtered table as CSV bytes.

Shallow embedding choices:
* A pandas DataFrame is a `Table`: a list of column names plus rows; each row
  is an association list from column name to an optional cell (`none` models
  pandas `NaN`/`NaT`/missing).
* Cell values are integers, strings, or dates.  Floating-point columns are not
  modelled (no claim depends on float arithmetic); means are taken in `ℚ` and
  a missing mean (pandas `NaN` result) is `none`.
* pandas library operations used by the script (`merge`, `isin` filtering,
  `sum`/`mean` with NaN-skipping, `np.where`, `pd.to_datetime(errors="coerce")`,
  `to_csv`/`read_csv`) are modelled directly, per their documented semantics
  on the value domain above.
-/

/-- A cell value: integers, strings, or calendar dates (pandas datetimes are
modelled at day granularity, which is all the script uses). -/
inductive Value where
  | intV : Int → Value
  | strV : String → Value
  | dateV : Nat → Nat → Nat → Value
deriving DecidableEq, Repr

/-- A row: an association list from column name to optional cell.
`none` models a pandas `NaN`/missing value. -/
abbrev Row := List (String × Option Value)

/-- A table: the column list plus the rows (pandas DataFrame). -/
structure Table where
  cols : List String
  rows : List Row
deriving DecidableEq, Repr

/-- Reading a cell: first entry with the given key; absent key reads as
missing (pandas yields `NaN` for a missing field of a merged row). -/
def rowGet : Row → String → Option Value
  | [], _ => none
  | (c, v) :: rest, c' => if c' = c then v else rowGet rest c'

/-- Whether a row carries an entry for a key (independent of the cell being
null). -/
def hasKey (r : Row) (c : String) : Bool := r.any (fun p => p.1 = c)

/-- Writing a cell: drop any existing entries for the key and append the new
one (models `df[col] = ...` for the affected row). -/
def setCell (r : Row) (c : String) (v : Option Value) : Row :=
  r.filter (fun p => !decide (p.1 = c)) ++ [(c, v)]

/-- Column-presence test, modelling `col in df.columns`. -/
def hasCol (t : Table) (c : String) : Bool := decide (c ∈ t.cols)

/-! ## Merge & Derive (`load_data`, app.py lines 27-36)

`df = orders.merge(delivery, on="Order_ID", how="left")` followed by the
conditional derivation of `Delay Days` and `Delay Flag`.

pandas left-merge semantics modelled: for each left row in order, emit one
output row per matching right row (key equality on `Order_ID`, where pandas
groups the NaN keys of both sides together, so null matches null), or a
single right-null-padded row when there is no match.  The script's tables share only the key column, so the
`_x`/`_y` suffixing pandas applies to other overlapping column names is not
modelled. -/

/-- The join key of a row. -/
def keyOf (r : Row) : Option Value := rowGet r "Order_ID"

/-- Key comparison for the merge: equality of optional keys.  pandas `merge`
factorizes NaN keys of both sides into one shared NA group, so a null key
matches a null key (unlike SQL). -/
def keyMatch (k : Option Value) (rr : Row) : Bool :=
  decide (keyOf rr = k)

/-- The delivery-side columns carried into the merged table (everything but
the join key). -/
def rightCols (delivery : Table) : List String :=
  delivery.cols.filter (fun c => !decide (c = "Order_ID"))

/-- Null padding for an order with no matching delivery record. -/
def rightNulls (delivery : Table) : Row :=
  (rightCols delivery).map (fun c => (c, (none : Option Value)))

/-- Drop the join key from a right row before concatenation (the merged
table has a single `Order_ID` column, from the left side). -/
def stripKey (rr : Row) : Row :=
  rr.filter (fun p => !decide (p.1 = "Order_ID"))

/-- Output rows contributed by one left row. -/
def mergeRows (delivery : Table) (lr : Row) : List Row :=
  if (delivery.rows.filter (keyMatch (keyOf lr))).isEmpty then
    [lr ++ rightNulls delivery]
  else (delivery.rows.filter (keyMatch (keyOf lr))).map (fun rr => lr ++ stripKey rr)

/-- Model of `orders.merge(delivery, on="Order_ID", how="left")`. -/
def mergeLeft (orders delivery : Table) : Table :=
  { cols := orders.cols ++ rightCols delivery,
    rows := (orders.rows.map (mergeRows delivery)).flatten }

/-- Model of `df["Delay Days"]` for one row:
`df["Actual_Delivery_Days"] - df["Promised_Delivery_Days"]` with pandas NaN
propagation (any missing or non-numeric operand yields NaN). -/
def ddCell (r : Row) : Option Value :=
  match rowGet r "Actual_Delivery_Days", rowGet r "Promised_Delivery_Days" with
  | some (Value.intV a), some (Value.intV p) => some (Value.intV (a - p))
  | _, _ => none

/-- Model of `df["Delay Flag"]` for one row: `np.where(df["Delay Days"] > 0, 1, 0)`.
A NaN comparison is False in numpy, so a missing `Delay Days` yields flag 0
(present), not NaN. -/
def flagCell (r : Row) : Option Value :=
  match ddCell r with
  | some (Value.intV d) => some (Value.intV (if 0 < d then 1 else 0))
  | _ => some (Value.intV 0)

/-- The two column assignments of app.py lines 31-32 applied to one row. -/
def deriveRow (r : Row) : Row :=
  setCell (setCell r "Delay Days" (ddCell r)) "Delay Flag" (flagCell r)

/-- Append a column name if not already present. -/
def addCol (cs : List String) (c : String) : List String :=
  if c ∈ cs then cs else cs ++ [c]

/-- The two column assignments applied to the whole table. -/
def addDerived (df : Table) : Table :=
  { cols := addCol (addCol df.cols "Delay Days") "Delay Flag",
    rows := df.rows.map deriveRow }

/-- The conditional derivation gate of app.py lines 30-34: derive only when
both source columns exist, otherwise return the merged table unchanged. -/
def loadDerive (df : Table) : Table :=
  if hasCol df "Actual_Delivery_Days" && hasCol df "Promised_Delivery_Days" then
    addDerived df
  else df

/-! ## Filter Engine (app.py lines 44-57) -/

/-- Model of `series.isin(sel)` for one cell: a null cell is never a member. -/
def isin (cell : Option Value) (sel : List Value) : Bool :=
  match cell with
  | some v => decide (v ∈ sel)
  | none => false

/-- Model of `df[col].dropna().unique()`: the distinct non-null values of a column
(membership is what the filter semantics consume; pandas keeps first
occurrences while `List.dedup` keeps last, which only affects order). -/
def observedValues (t : Table) (c : String) : List Value :=
  (t.rows.filterMap (fun r => rowGet r c)).dedup

/-- app.py lines 54-57:
`if len(priority) > 0 and len(category) > 0:` filter by membership in both
selections, `else:` a full copy of the merged table. -/
def filtered_df (df : Table) (priority category : List Value) : Table :=
  if 0 < priority.length ∧ 0 < category.length then
    { cols := df.cols,
      rows := df.rows.filter (fun r =>
        isin (rowGet r "Priority") priority &&
        isin (rowGet r "Product Category") category) }
  else df

/-! ## KPI Summarizer (app.py lines 63-66) -/

/-- Numeric reading of a cell (non-numeric or null cells contribute nothing
to pandas `sum`/`mean`, which skip NaN). -/
def cellInt : Option Value → Option Int
  | some (Value.intV n) => some n
  | _ => none

/-- The non-null numeric values of a column. -/
def numCells (t : Table) (c : String) : List Int :=
  t.rows.filterMap (fun r => cellInt (rowGet r c))

/-- Model of `series.mean()`: `none` models the NaN that pandas returns on an empty or
all-NaN column. -/
def colMean (t : Table) (c : String) : Option ℚ :=
  let vs := numCells t c
  if vs.isEmpty then none else some ((vs.sum : ℚ) / (vs.length : ℚ))

/-- Python `round(x, 2)` modelled as rounding `x*100` to the nearest integer
(Python rounds the underlying binary float half-to-even; no claim exercises a
half-way case). `round` of a NaN is NaN, hence `Option.map`. -/
def round2 (q : ℚ) : ℚ := ((round (q * 100) : ℤ) : ℚ) / 100

/-- Model of `total_orders = len(filtered_df)`. -/
def total_orders (t : Table) : Nat := t.rows.length

/-- Model of `delayed_orders = filtered_df["Delay Flag"].sum() if "Delay Flag" in
filtered_df.columns else 0`. -/
def delayed_orders (t : Table) : Int :=
  if hasCol t "Delay Flag" then (numCells t "Delay Flag").sum else 0

/-- Model of `avg_delay = round(filtered_df["Delay Days"].mean(), 2) if "Delay Days"
in filtered_df.columns else 0`; `none` models a NaN result. -/
def avg_delay (t : Table) : Option ℚ :=
  if hasCol t "Delay Days" then (colMean t "Delay Days").map round2
  else some 0

/-- Model of `avg_rating = round(filtered_df["Customer Rating"].mean(), 2) if
"Customer Rating" in filtered_df.columns else 0`. -/
def avg_rating (t : Table) : Option ℚ :=
  if hasCol t "Customer Rating" then (colMean t "Customer Rating").map round2
  else some 0

/-! ## Delay Trend chart date coercion and export ordering (app.py 88-90, 114)

The trend chart runs
`filtered_df["Order Date"] = pd.to_datetime(filtered_df["Order Date"], errors="coerce")`
mutating the filtered frame in place, and the CSV export at line 114 runs
after the chart section, so it serializes the coerced values. -/

/-- Digit value of a character. -/
def digitVal (c : Char) : Nat := c.toNat - '0'.toNat

/-- Gregorian leap year. -/
def isLeap (y : Nat) : Bool := (y % 4 = 0 && y % 100 ≠ 0) || y % 400 = 0

/-- Days in a month. -/
def daysInMonth (y m : Nat) : Nat :=
  if m = 1 ∨ m = 3 ∨ m = 5 ∨ m = 7 ∨ m = 8 ∨ m = 10 ∨ m = 12 then 31
  else if m = 4 ∨ m = 6 ∨ m = 9 ∨ m = 11 then 30
  else if m = 2 then (if isLeap y then 29 else 28)
  else 0

/-- Calendar validity (pandas rejects out-of-calendar dates; its nanosecond
`Timestamp` year bounds 1677-2262 are not modelled, no claim touches them). -/
def validDate (y m d : Nat) : Bool :=
  decide (1 ≤ m) && decide (m ≤ 12) && decide (1 ≤ d) &&
  decide (d ≤ daysInMonth y m) && decide (y ≤ 9999)

/-- ISO `YYYY-MM-DD` parsing; `pd.to_datetime` accepts more formats, but one
concrete parseable format plus rejection of everything else is all the claims
exercise. -/
def parseDate (s : String) : Option (Nat × Nat × Nat) :=
  match s.data with
  | [y1, y2, y3, y4, sep1, m1, m2, sep2, d1, d2] =>
    if sep1 = '-' ∧ sep2 = '-' ∧
        [y1, y2, y3, y4, m1, m2, d1, d2].all Char.isDigit ∧
        validDate
          (((digitVal y1 * 10 + digitVal y2) * 10 + digitVal y3) * 10 + digitVal y4)
          (digitVal m1 * 10 + digitVal m2) (digitVal d1 * 10 + digitVal d2) then
      some ((((digitVal y1 * 10 + digitVal y2) * 10 + digitVal y3) * 10 + digitVal y4),
        (digitVal m1 * 10 + digitVal m2), (digitVal d1 * 10 + digitVal d2))
    else none
  | _ => none

/-- Model of `pd.to_datetime(cell, errors="coerce")` for one cell: unparseable values
become NaT (`none`); already-datetime values pass through.  (pandas would
read an integer cell as an epoch offset; the script's date column is textual,
so integers are modelled as unparseable.) -/
def parseDateCell : Option Value → Option Value
  | some (Value.strV s) => (parseDate s).map (fun x => Value.dateV x.1 x.2.1 x.2.2)
  | some (Value.dateV y m d) => some (Value.dateV y m d)
  | some (Value.intV _) => none
  | none => none

/-- The in-place `Order Date` coercion of app.py line 89 over the table. -/
def coerceOrderDates (t : Table) : Table :=
  { cols := t.cols,
    rows := t.rows.map (fun r =>
      setCell r "Order Date" (parseDateCell (rowGet r "Order Date"))) }

/-- The chart section's net effect on `filtered_df` before the export: only
the trend chart (line 88's gate) mutates the frame, and only when both of its
required columns are present. -/
def chartsPhase (t : Table) : Table :=
  if hasCol t "Order Date" && hasCol t "Delay Flag" then coerceOrderDates t
  else t

/-! ## CSV Exporter (`to_csv(index=False).encode("utf-8")`, app.py line 114)
and schema-directed re-parse (`read_csv`).

`to_csv` semantics modelled: comma separator, one header row, every record
terminated by `\n`, `QUOTE_MINIMAL` quoting (a field is quoted iff it
contains a comma, a quote, or a newline; quotes are doubled), NaN written as
the empty field, no index column.  The script's integer and date cells print
in canonical form; pandas' float formatting of int columns that acquired
NaNs via the join is not modelled (no claim depends on it). -/

/-- Decimal digits of a natural number, most significant first. -/
def natToDigits (n : Nat) : List Char :=
  if _h : n < 10 then [Nat.digitChar n]
  else natToDigits (n / 10) ++ [Nat.digitChar (n % 10)]
decreasing_by exact Nat.div_lt_self (by omega) (by omega)

/-- Rendering of an integer cell. -/
def intStr (i : Int) : String :=
  match i with
  | Int.ofNat n => String.mk (natToDigits n)
  | Int.negSucc n => String.mk ('-' :: natToDigits (n + 1))

/-- Two-digit zero-padded rendering. -/
def pad2 (n : Nat) : List Char := [Nat.digitChar (n / 10 % 10), Nat.digitChar (n % 10)]

/-- Four-digit zero-padded rendering. -/
def pad4 (n : Nat) : List Char :=
  [Nat.digitChar (n / 1000 % 10), Nat.digitChar (n / 100 % 10),
   Nat.digitChar (n / 10 % 10), Nat.digitChar (n % 10)]

/-- ISO rendering of a date cell (how pandas prints a midnight datetime
column). -/
def printDate (y m d : Nat) : String :=
  String.mk (pad4 y ++ '-' :: pad2 m ++ '-' :: pad2 d)

/-- The raw field text of one cell: NaN prints as the empty field. -/
def fieldOf : Option Value → String
  | none => ""
  | some (Value.intV i) => intStr i
  | some (Value.strV s) => s
  | some (Value.dateV y m d) => printDate y m d

/-- Quoting rule `QUOTE_MINIMAL`: quote a field iff it contains delimiter, quote, or
newline. -/
def needsQuote (f : String) : Bool :=
  f.data.any (fun c => c = ',' || c = '"' || c = '\n')

/-- Double every quote inside a quoted field. -/
def escapeChars : List Char → List Char
  | [] => []
  | c :: rest =>
    if c = '"' then '"' :: '"' :: escapeChars rest else c :: escapeChars rest

/-- Rendered text of one field. -/
def renderField (f : String) : List Char :=
  if needsQuote f then '"' :: (escapeChars f.data ++ ['"']) else f.data

/-- Rendered text of one record (comma-separated fields). -/
def renderRecord : List String → List Char
  | [] => []
  | [f] => renderField f
  | f :: fs => renderField f ++ ',' :: renderRecord fs

/-- Rendered text of a record sequence, each record `\n`-terminated. -/
def renderAll (recs : List (List String)) : List Char :=
  (recs.map (fun r => renderRecord r ++ ['\n'])).flatten

/-- Model of `filtered_df.to_csv(index=False)`: header record then one record per row,
fields in column order. -/
def toCSV (t : Table) : String :=
  String.mk (renderAll
    (t.cols :: t.rows.map (fun r => t.cols.map (fun c => fieldOf (rowGet r c)))))

/-- The download artifact of app.py line 114: the chart section has already
run on `filtered_df` when `to_csv` executes. -/
def exportCsv (t : Table) : String := toCSV (chartsPhase t)

/-- The spec's literal scenario, orders side: `Order_ID ∈ {1,2,3}`. -/
def ordersEx : Table :=
  { cols := ["Order_ID"],
    rows := [[("Order_ID", some (Value.intV 1))],
             [("Order_ID", some (Value.intV 2))],
             [("Order_ID", some (Value.intV 3))]] }

/-- The spec's literal scenario, delivery side: records for orders 1 and 2
only, Promised=3/Actual=5 and Promised=4/Actual=2. -/
def deliveryEx : Table :=
  { cols := ["Order_ID", "Promised_Delivery_Days", "Actual_Delivery_Days"],
    rows := [[("Order_ID", some (Value.intV 1)),
              ("Promised_Delivery_Days", some (Value.intV 3)),
              ("Actual_Delivery_Days", some (Value.intV 5))],
             [("Order_ID", some (Value.intV 2)),
              ("Promised_Delivery_Days", some (Value.intV 4)),
              ("Actual_Delivery_Days", some (Value.intV 2))]] }

/-- Two-row table with one priority value and two categories. -/
def prodEx : Table :=
  { cols := ["Priority", "Product Category"],
    rows := [[("Priority", some (Value.strV "A")),
              ("Product Category", some (Value.strV "X"))],
             [("Priority", some (Value.strV "A")),
              ("Product Category", some (Value.strV "Y"))]] }

/-- A table carrying none of the KPI source columns. -/
def kpiEx : Table := { cols := ["Order_ID"], rows := [] }

/-- Both KPI mean columns present but no rows. -/
def emptyColsEx : Table := { cols := ["Delay Days", "Customer Rating"], rows := [] }

/-- Table for the export-ordering claim: a parseable and an unparseable
order date. -/
def trendEx : Table :=
  { cols := ["Order Date", "Delay Flag"],
    rows := [[("Order Date", some (Value.strV "2024-01-05")),
              ("Delay Flag", some (Value.intV 1))],
             [("Order Date", some (Value.strV "hello")),
              ("Delay Flag", some (Value.intV 0))]] }

@[simp] theorem rowGet_nil (c : String) : rowGet [] c = none := rfl

@[simp] theorem rowGet_cons (c c' : String) (v : Option Value) (r : Row) :
    rowGet ((c, v) :: r) c' = if c' = c then v else rowGet r c' := rfl

theorem rowGet_append_of_not_hasKey (r1 r2 : Row) (c : String)
    (h : hasKey r1 c = false) : rowGet (r1 ++ r2) c = rowGet r2 c := by
  induction r1 with
  | nil => rfl
  | cons p r1 ih =>
    simp only [hasKey, List.any_cons, Bool.or_eq_false_iff] at h
    obtain ⟨h1, h2⟩ := h
    obtain ⟨k, v⟩ := p
    simp only [List.cons_append, rowGet_cons]
    rw [if_neg, ih h2]
    intro hc
    subst hc
    simp at h1

theorem rowGet_filter_ne (r : Row) (c c' : String) (hne : c' ≠ c) :
    rowGet (r.filter (fun p => !decide (p.1 = c))) c' = rowGet r c' := by
  induction r with
  | nil => rfl
  | cons p r ih =>
    obtain ⟨k, v⟩ := p
    by_cases hk : k = c
    · subst hk
      simp only [List.filter_cons]
      rw [if_neg (by simp)]
      rw [ih, rowGet_cons, if_neg hne]
    · simp only [List.filter_cons]
      rw [if_pos (by simpa using hk)]
      simp only [rowGet_cons]
      by_cases hck : c' = k
      · simp [hck]
      · rw [if_neg hck, if_neg hck, ih]

theorem rowGet_setCell_same (r : Row) (c : String) (v : Option Value) :
    rowGet (setCell r c v) c = v := by
  unfold setCell
  rw [rowGet_append_of_not_hasKey]
  · simp
  · simp [hasKey, List.any_filter]

theorem rowGet_append (r1 r2 : Row) (c : String) :
    rowGet (r1 ++ r2) c = if hasKey r1 c then rowGet r1 c else rowGet r2 c := by
  induction r1 with
  | nil => simp [hasKey]
  | cons p r1 ih =>
    obtain ⟨k, v⟩ := p
    simp only [List.cons_append, rowGet_cons, hasKey, List.any_cons]
    by_cases hck : c = k
    · subst hck
      simp
    · rw [if_neg hck]
      rw [ih]
      have : decide (k = c) = false := by
        simp
        intro h
        exact hck h.symm
      simp only [hasKey] at *
      rw [this]
      simp only [Bool.false_or]
      by_cases hk : r1.any (fun p => decide (p.1 = c)) = true
      · rw [if_pos hk, if_pos hk, if_neg hck]
      · simp only [Bool.not_eq_true] at hk
        simp [hk]

theorem rowGet_eq_none_of_not_hasKey (r : Row) (c : String)
    (h : hasKey r c = false) : rowGet r c = none := by
  induction r with
  | nil => rfl
  | cons p r ih =>
    obtain ⟨k, v⟩ := p
    simp only [hasKey, List.any_cons, Bool.or_eq_false_iff] at h
    obtain ⟨h1, h2⟩ := h
    simp only [rowGet_cons]
    rw [if_neg, ih h2]
    intro hc
    subst hc
    simp at h1

theorem rowGet_setCell_ne (r : Row) (c c' : String) (v : Option Value)
    (hne : c' ≠ c) : rowGet (setCell r c v) c' = rowGet r c' := by
  unfold setCell
  rw [rowGet_append]
  by_cases hk : hasKey (r.filter (fun p => !decide (p.1 = c))) c' = true
  · rw [if_pos hk, rowGet_filter_ne _ _ _ hne]
  · simp only [Bool.not_eq_true] at hk
    rw [hk]
    simp only [Bool.false_eq_true, if_false, rowGet_cons, rowGet_nil]
    rw [if_neg hne]
    rw [← rowGet_filter_ne r c c' hne]
    exact (rowGet_eq_none_of_not_hasKey _ _ hk).symm

theorem deriveRow_get_flag (r : Row) :
    rowGet (deriveRow r) "Delay Flag" = flagCell r := by
  unfold deriveRow
  rw [rowGet_setCell_same]

theorem deriveRow_get_dd (r : Row) :
    rowGet (deriveRow r) "Delay Days" = ddCell r := by
  unfold deriveRow
  rw [rowGet_setCell_ne _ _ _ _ (by decide), rowGet_setCell_same]

theorem deriveRow_get_other (r : Row) (c : String)
    (h1 : c ≠ "Delay Days") (h2 : c ≠ "Delay Flag") :
    rowGet (deriveRow r) c = rowGet r c := by
  unfold deriveRow
  rw [rowGet_setCell_ne _ _ _ _ h2, rowGet_setCell_ne _ _ _ _ h1]

theorem ddCell_eq_sub (r : Row) (a p : Int)
    (ha : rowGet r "Actual_Delivery_Days" = some (Value.intV a))
    (hp : rowGet r "Promised_Delivery_Days" = some (Value.intV p)) :
    ddCell r = some (Value.intV (a - p)) := by
  unfold ddCell
  rw [ha, hp]

theorem ddCell_none_of_missing (r : Row)
    (h : rowGet r "Actual_Delivery_Days" = none ∨
         rowGet r "Promised_Delivery_Days" = none) :
    ddCell r = none := by
  unfold ddCell
  rcases h with h | h
  · rw [h]
  · rw [h]
    cases ha : rowGet r "Actual_Delivery_Days" with
    | none => rfl
    | some v => cases v <;> rfl

theorem loadDerive_rows (df : Table)
    (h1 : hasCol df "Actual_Delivery_Days" = true)
    (h2 : hasCol df "Promised_Delivery_Days" = true) :
    (loadDerive df).rows = df.rows.map deriveRow := by
  unfold loadDerive
  rw [if_pos (by rw [h1, h2]; rfl)]
  rfl

/-- C2: for every merged row in which both `Promised_Delivery_Days` and
`Actual_Delivery_Days` are present, `Delay Days` equals actual minus promised
exactly (integer arithmetic, negatives allowed), and `Delay Flag` is 1 iff
`Delay Days > 0`, else 0. -/
theorem C2_delay_derivation (df : Table) (r : Row) (a p : Int)
    (h1 : hasCol df "Actual_Delivery_Days" = true)
    (h2 : hasCol df "Promised_Delivery_Days" = true)
    (hr : r ∈ (loadDerive df).rows)
    (ha : rowGet r "Actual_Delivery_Days" = some (Value.intV a))
    (hp : rowGet r "Promised_Delivery_Days" = some (Value.intV p)) :
    rowGet r "Delay Days" = some (Value.intV (a - p)) ∧
    (rowGet r "Delay Flag" = some (Value.intV 1) ↔ 0 < a - p) ∧
    (rowGet r "Delay Flag" = some (Value.intV 0) ↔ ¬0 < a - p) := by
  rw [loadDerive_rows df h1 h2] at hr
  obtain ⟨r0, hr0, rfl⟩ := List.mem_map.mp hr
  rw [deriveRow_get_other r0 _ (by decide) (by decide)] at ha
  rw [deriveRow_get_other r0 _ (by decide) (by decide)] at hp
  have hdd : ddCell r0 = some (Value.intV (a - p)) := ddCell_eq_sub r0 a p ha hp
  have hfl : flagCell r0 = some (Value.intV (if 0 < a - p then 1 else 0)) := by
    unfold flagCell
    rw [hdd]
  refine ⟨?_, ?_, ?_⟩
  · rw [deriveRow_get_dd, hdd]
  · rw [deriveRow_get_flag, hfl]
    by_cases hpos : 0 < a - p
    · simp [hpos]
    · simp only [hpos, if_false]
      simp [hpos]
  · rw [deriveRow_get_flag, hfl]
    by_cases hpos : 0 < a - p
    · simp [hpos]
    · simp [hpos]

/-- Witness for C2 at the spec's literal scenario, row 1 (Actual=5,
Promised=3). -/
theorem C2_delay_derivation_witness :
    rowGet ((loadDerive (mergeLeft ordersEx deliveryEx)).rows.getD 0 [])
        "Delay Days" = some (Value.intV (5 - 3)) ∧
    (rowGet ((loadDerive (mergeLeft ordersEx deliveryEx)).rows.getD 0 [])
        "Delay Flag" = some (Value.intV 1) ↔ 0 < (5 : Int) - 3) ∧
    (rowGet ((loadDerive (mergeLeft ordersEx deliveryEx)).rows.getD 0 [])
        "Delay Flag" = some (Value.intV 0) ↔ ¬0 < (5 : Int) - 3) :=
  C2_delay_derivation (mergeLeft ordersEx deliveryEx)
    ((loadDerive (mergeLeft ordersEx deliveryEx)).rows.getD 0 []) 5 3
    (by decide) (by decide) (by decide) (by decide) (by decide)

/-- C1 as stated is false: for the literal scenario's unmatched row 3,
`Delay Days` is indeed absent, but `Delay Flag` is present and equal to 0
(NumPy's `NaN > 0` comparison is False, so `np.where` places 0, not NaN). -/
theorem C1_counterexample :
    rowGet ((loadDerive (mergeLeft ordersEx deliveryEx)).rows.getD 2 [])
        "Delay Days" = none ∧
    ¬ rowGet ((loadDerive (mergeLeft ordersEx deliveryEx)).rows.getD 2 [])
        "Delay Flag" = none := by
  decide

/-- C1 amended: for every merged row whose delivery-side day fields are
absent, `Delay Days` is absent while `Delay Flag` is present and equal to 0
(not absent): `np.where(NaN > 0, 1, 0)` yields 0. -/
theorem C1_missing_delivery_derivation (df : Table) (r : Row)
    (h1 : hasCol df "Actual_Delivery_Days" = true)
    (h2 : hasCol df "Promised_Delivery_Days" = true)
    (hr : r ∈ (loadDerive df).rows)
    (hmiss : rowGet r "Actual_Delivery_Days" = none ∨
             rowGet r "Promised_Delivery_Days" = none) :
    rowGet r "Delay Days" = none ∧
    rowGet r "Delay Flag" = some (Value.intV 0) := by
  rw [loadDerive_rows df h1 h2] at hr
  obtain ⟨r0, hr0, rfl⟩ := List.mem_map.mp hr
  rw [deriveRow_get_other r0 _ (by decide) (by decide),
      deriveRow_get_other r0 _ (by decide) (by decide)] at hmiss
  have hdd : ddCell r0 = none := ddCell_none_of_missing r0 hmiss
  constructor
  · rw [deriveRow_get_dd, hdd]
  · rw [deriveRow_get_flag]
    unfold flagCell
    rw [hdd]

/-- Witness for the amended C1 at the literal scenario's row 3. -/
theorem C1_missing_delivery_derivation_witness :
    rowGet ((loadDerive (mergeLeft ordersEx deliveryEx)).rows.getD 2 [])
        "Delay Days" = none ∧
    rowGet ((loadDerive (mergeLeft ordersEx deliveryEx)).rows.getD 2 [])
        "Delay Flag" = some (Value.intV 0) :=
  C1_missing_delivery_derivation (mergeLeft ordersEx deliveryEx)
    ((loadDerive (mergeLeft ordersEx deliveryEx)).rows.getD 2 [])
    (by decide) (by decide) (by decide) (by decide)

theorem keyMatch_eq_true_iff (k : Option Value) (rr : Row) :
    keyMatch k rr = true ↔ keyOf rr = k := by
  unfold keyMatch
  exact decide_eq_true_iff

theorem filter_keyMatch_length_le_one (rows : List Row) (k : Option Value)
    (h : (rows.map keyOf).Nodup) :
    (rows.filter (keyMatch k)).length ≤ 1 := by
  induction rows with
  | nil => simp
  | cons rr rest ih =>
    rw [List.map_cons, List.nodup_cons] at h
    rw [List.filter_cons]
    by_cases hm : keyMatch k rr = true
    · rw [if_pos hm]
      have hk : keyOf rr = k := (keyMatch_eq_true_iff k rr).mp hm
      have hrest : rest.filter (keyMatch k) = [] := by
        rw [List.filter_eq_nil_iff]
        intro rr2 hrr2 hm2
        have hk2 : keyOf rr2 = k := (keyMatch_eq_true_iff k rr2).mp hm2
        apply h.1
        rw [List.mem_map]
        exact ⟨rr2, hrr2, by rw [hk2, hk]⟩
      rw [hrest]
      simp
    · rw [if_neg (by simp [hm])]
      exact ih h.2

theorem mergeRows_length (delivery : Table) (lr : Row)
    (h : (delivery.rows.map keyOf).Nodup) :
    (mergeRows delivery lr).length = 1 := by
  unfold mergeRows
  have hle := filter_keyMatch_length_le_one delivery.rows (keyOf lr) h
  cases hfe : delivery.rows.filter (keyMatch (keyOf lr)) with
  | nil => rfl
  | cons x xs =>
    rw [hfe] at hle
    simp only [List.isEmpty_cons, Bool.false_eq_true, if_false, List.length_map]
    simp only [List.length_cons] at hle ⊢
    omega

/-- C5: the left join preserves the orders table's cardinality whenever the
delivery table has at most one record per `Order_ID` value, the null key
included (pandas matches NaN keys with each other, so a duplicated null
delivery key would also fan out). -/
theorem C5_left_join_preserves_rows (orders delivery : Table)
    (huniq : (delivery.rows.map keyOf).Nodup) :
    (mergeLeft orders delivery).rows.length = orders.rows.length := by
  unfold mergeLeft
  rw [List.length_flatten, List.map_map]
  have hone : (List.length ∘ mergeRows delivery) = fun _ => 1 := by
    funext lr
    exact mergeRows_length delivery lr huniq
  rw [hone, List.map_const', List.sum_replicate]
  simp

/-- Witness for C5 at the literal scenario tables. -/
theorem C5_left_join_preserves_rows_witness :
    (mergeLeft ordersEx deliveryEx).rows.length = ordersEx.rows.length :=
  C5_left_join_preserves_rows ordersEx deliveryEx (by decide)

theorem isin_eq_true_iff (cell : Option Value) (sel : List Value) :
    isin cell sel = true ↔ ∃ v, cell = some v ∧ v ∈ sel := by
  cases cell with
  | none => simp [isin]
  | some u => simp [isin]

theorem mem_observedValues (t : Table) (c : String) (r : Row) (v : Value)
    (hr : r ∈ t.rows) (hv : rowGet r c = some v) : v ∈ observedValues t c := by
  unfold observedValues
  rw [List.mem_dedup, List.mem_filterMap]
  exact ⟨r, hr, hv⟩

/-- C3 as stated is false: with the category selection held fixed at a proper
subset of the observed categories, selecting zero priorities returns the full
table (both rows of `prodEx`) while selecting all observed priorities returns
only the category-matching row. -/
theorem C3_counterexample :
    filtered_df prodEx [] [Value.strV "X"]
      ≠ filtered_df prodEx (observedValues prodEx "Priority") [Value.strV "X"] := by
  decide

/-- C3 amended: selecting zero values in either present dimension makes the
engine return the full unfiltered table (ignoring the other dimension's
selection entirely), never the empty result; this coincides with select-all
when the other dimension is also set to all its observed values and no row
is null in either filter column. -/
theorem C3_no_selection_policy (t : Table) (sel sel' : List Value)
    (hP : ∀ r ∈ t.rows, (rowGet r "Priority").isSome)
    (hC : ∀ r ∈ t.rows, (rowGet r "Product Category").isSome) :
    filtered_df t [] sel = t ∧ filtered_df t sel' [] = t ∧
    filtered_df t (observedValues t "Priority")
      (observedValues t "Product Category") = t := by
  refine ⟨by simp [filtered_df], by simp [filtered_df], ?_⟩
  cases hrows : t.rows with
  | nil =>
    have hobs : observedValues t "Priority" = [] := by
      unfold observedValues
      rw [hrows]
      rfl
    rw [filtered_df, if_neg (by rw [hobs]; simp)]
  | cons r0 rest =>
    have hr0 : r0 ∈ t.rows := by
      rw [hrows]
      exact List.mem_cons_self _ _
    obtain ⟨v0, hv0⟩ := Option.isSome_iff_exists.mp (hP r0 hr0)
    obtain ⟨w0, hw0⟩ := Option.isSome_iff_exists.mp (hC r0 hr0)
    have hPl : 0 < (observedValues t "Priority").length :=
      List.length_pos.mpr (List.ne_nil_of_mem (mem_observedValues t _ r0 v0 hr0 hv0))
    have hCl : 0 < (observedValues t "Product Category").length :=
      List.length_pos.mpr (List.ne_nil_of_mem (mem_observedValues t _ r0 w0 hr0 hw0))
    rw [filtered_df, if_pos ⟨hPl, hCl⟩]
    have hall : t.rows.filter (fun r =>
        isin (rowGet r "Priority") (observedValues t "Priority") &&
        isin (rowGet r "Product Category") (observedValues t "Product Category"))
        = t.rows := by
      rw [List.filter_eq_self]
      intro r hr
      obtain ⟨v, hv⟩ := Option.isSome_iff_exists.mp (hP r hr)
      obtain ⟨w, hw⟩ := Option.isSome_iff_exists.mp (hC r hr)
      rw [Bool.and_eq_true, isin_eq_true_iff, isin_eq_true_iff]
      exact ⟨⟨v, hv, mem_observedValues t _ r v hr hv⟩,
             ⟨w, hw, mem_observedValues t _ r w hr hw⟩⟩
    rw [hall]

/-- Witness for the amended C3 at `prodEx` (all cells non-null). -/
theorem C3_no_selection_policy_witness :
    filtered_df prodEx [] [Value.strV "Z"] = prodEx ∧
    filtered_df prodEx [Value.strV "Z"] [] = prodEx ∧
    filtered_df prodEx (observedValues prodEx "Priority")
      (observedValues prodEx "Product Category") = prodEx :=
  C3_no_selection_policy prodEx [Value.strV "Z"] [Value.strV "Z"]
    (by decide) (by decide)

/-- C4: with both columns present and both selections non-empty, the filter
output consists of exactly the rows whose priority is in the accepted
priority set and whose category is in the accepted category set. -/
theorem C4_filter_membership (t : Table) (P C : List Value) (r : Row)
    (hP : P ≠ []) (hC : C ≠ [])
    (_h1 : hasCol t "Priority" = true)
    (_h2 : hasCol t "Product Category" = true) :
    r ∈ (filtered_df t P C).rows ↔
      r ∈ t.rows ∧ (∃ v, rowGet r "Priority" = some v ∧ v ∈ P) ∧
        (∃ w, rowGet r "Product Category" = some w ∧ w ∈ C) := by
  rw [filtered_df, if_pos ⟨List.length_pos.mpr hP, List.length_pos.mpr hC⟩]
  show r ∈ t.rows.filter _ ↔ _
  rw [List.mem_filter, Bool.and_eq_true, isin_eq_true_iff, isin_eq_true_iff]

/-- Witness for C4 at `prodEx` with selections {A} and {X}: the first row is
accepted. -/
theorem C4_filter_membership_witness :
    prodEx.rows.getD 0 [] ∈
        (filtered_df prodEx [Value.strV "A"] [Value.strV "X"]).rows ↔
      prodEx.rows.getD 0 [] ∈ prodEx.rows ∧
        (∃ v, rowGet (prodEx.rows.getD 0 []) "Priority" = some v ∧
          v ∈ [Value.strV "A"]) ∧
        (∃ w, rowGet (prodEx.rows.getD 0 []) "Product Category" = some w ∧
          w ∈ [Value.strV "X"]) :=
  C4_filter_membership prodEx [Value.strV "A"] [Value.strV "X"]
    (prodEx.rows.getD 0 []) (by decide) (by decide) (by decide) (by decide)

/-- C6: each KPI whose source column is absent reports exactly zero (the
summarizer is total: no error path exists for a missing column). -/
theorem C6_kpi_fallbacks (t : Table) :
    (hasCol t "Customer Rating" = false → avg_rating t = some 0) ∧
    (hasCol t "Delay Flag" = false → delayed_orders t = 0) ∧
    (hasCol t "Delay Days" = false → avg_delay t = some 0) := by
  refine ⟨fun h => ?_, fun h => ?_, fun h => ?_⟩
  · simp [avg_rating, h]
  · simp [delayed_orders, h]
  · simp [avg_delay, h]

/-- Witness for C6 at a table carrying none of the KPI source columns. -/
theorem C6_kpi_fallbacks_witness :
    avg_rating kpiEx = some 0 ∧ delayed_orders kpiEx = 0 ∧
    avg_delay kpiEx = some 0 :=
  ⟨(C6_kpi_fallbacks kpiEx).1 (by decide),
   (C6_kpi_fallbacks kpiEx).2.1 (by decide),
   (C6_kpi_fallbacks kpiEx).2.2 (by decide)⟩

/-- C7: applying the filter twice with the same selection equals applying it
once. -/
theorem C7_filter_idempotent (t : Table) (P C : List Value) :
    filtered_df (filtered_df t P C) P C = filtered_df t P C := by
  unfold filtered_df
  by_cases h : 0 < P.length ∧ 0 < C.length
  · rw [if_pos h, if_pos h]
    dsimp only
    rw [List.filter_filter]
    simp [Bool.and_self]
  · rw [if_neg h, if_neg h]

/-- C10: with the mean's source column present but holding no non-null
values, the KPI is NaN (no numeric value), not the zero fallback. -/
theorem C10_all_null_mean_is_nan (t : Table)
    (hD : hasCol t "Delay Days" = true)
    (hR : hasCol t "Customer Rating" = true)
    (hnD : ∀ r ∈ t.rows, rowGet r "Delay Days" = none)
    (hnR : ∀ r ∈ t.rows, rowGet r "Customer Rating" = none) :
    avg_delay t = none ∧ avg_rating t = none := by
  have e1 : numCells t "Delay Days" = [] := by
    unfold numCells
    rw [List.filterMap_eq_nil_iff]
    intro r hr
    rw [hnD r hr]
    rfl
  have e2 : numCells t "Customer Rating" = [] := by
    unfold numCells
    rw [List.filterMap_eq_nil_iff]
    intro r hr
    rw [hnR r hr]
    rfl
  constructor
  · simp [avg_delay, hD, colMean, e1]
  · simp [avg_rating, hR, colMean, e2]

/-- Witness for C10 at an empty table whose columns are present. -/
theorem C10_all_null_mean_is_nan_witness :
    avg_delay emptyColsEx = none ∧ avg_rating emptyColsEx = none :=
  C10_all_null_mean_is_nan emptyColsEx (by decide) (by decide)
    (by intro r hr; cases hr) (by intro r hr; cases hr)

theorem chartsPhase_eq_coerce (t : Table)
    (h1 : hasCol t "Order Date" = true) (h2 : hasCol t "Delay Flag" = true) :
    chartsPhase t = coerceOrderDates t := by
  unfold chartsPhase
  rw [h1, h2]
  rfl

theorem chartsPhase_getD (t : Table) (i : Nat)
    (h1 : hasCol t "Order Date" = true) (h2 : hasCol t "Delay Flag" = true)
    (hi : i < t.rows.length) :
    (chartsPhase t).rows.getD i []
      = setCell (t.rows.getD i []) "Order Date"
          (parseDateCell (rowGet (t.rows.getD i []) "Order Date")) := by
  rw [chartsPhase_eq_coerce t h1 h2]
  show (t.rows.map _).getD i [] = _
  rw [List.getD_eq_getElem?_getD, List.getElem?_map,
      List.getElem?_eq_getElem hi]
  rw [List.getD_eq_getElem?_getD, List.getElem?_eq_getElem hi]
  rfl

/-- C9: when the filtered table has both `Order Date` and `Delay Flag`, the
exported CSV is the CSV of the date-coerced table (the trend chart's in-place
`pd.to_datetime(..., errors="coerce")` runs before line 114's `to_csv`): each
exported row's `Order Date` is the coerced value (`none`, hence an empty CSV
field, for unparseable dates) while every other column is untouched; when
either column is missing the chart is skipped and the export equals the CSV
of the original table. -/
theorem C9_export_after_coercion (t : Table) :
    (hasCol t "Order Date" = true → hasCol t "Delay Flag" = true →
      exportCsv t = toCSV (coerceOrderDates t) ∧
      ∀ i, i < t.rows.length →
        rowGet ((chartsPhase t).rows.getD i []) "Order Date"
          = parseDateCell (rowGet (t.rows.getD i []) "Order Date") ∧
        ∀ c, c ≠ "Order Date" →
          rowGet ((chartsPhase t).rows.getD i []) c
            = rowGet (t.rows.getD i []) c) ∧
    ((hasCol t "Order Date" = false ∨ hasCol t "Delay Flag" = false) →
      exportCsv t = toCSV t) := by
  constructor
  · intro h1 h2
    refine ⟨by rw [exportCsv, chartsPhase_eq_coerce t h1 h2], ?_⟩
    intro i hi
    rw [chartsPhase_getD t i h1 h2 hi]
    exact ⟨rowGet_setCell_same _ _ _,
           fun c hc => rowGet_setCell_ne _ _ _ _ hc⟩
  · intro h
    have hskip : chartsPhase t = t := by
      unfold chartsPhase
      rcases h with h | h <;> rw [h] <;> simp
    rw [exportCsv, hskip]

/-- Witness for C9 at `trendEx` (one parseable date, one not). -/
theorem C9_export_after_coercion_witness :
    exportCsv trendEx = toCSV (coerceOrderDates trendEx) ∧
    rowGet ((chartsPhase trendEx).rows.getD 1 []) "Order Date"
      = parseDateCell (rowGet (trendEx.rows.getD 1 []) "Order Date") ∧
    rowGet ((chartsPhase trendEx).rows.getD 1 []) "Delay Flag"
      = rowGet (trendEx.rows.getD 1 []) "Delay Flag" :=
  ⟨((C9_export_after_coercion trendEx).1 (by decide) (by decide)).1,
   (((C9_export_after_coercion trendEx).1 (by decide) (by decide)).2 1
      (by decide)).1,
   (((C9_export_after_coercion trendEx).1 (by decide) (by decide)).2 1
      (by decide)).2 "Delay Flag" (by decide)⟩

